import Mathlib

/-
Verification of the projection / edge-detection engine of the
Jobu_Application repository.

The TypeScript core (src/unnamed/part_008 and the detectRlm function of
src/server/services/pipeline.ts) is shallowly embedded here:

  * JS numbers are modelled by `ℚ`; `Math.round` is `jround` (round half
    toward +∞), rounding to one decimal is `round1`.
  * Nullable numbers (`number | null`) are `Option ℚ`; JS truthiness of
    such a value is `truthy` (null and 0 are falsy), `a || b` is
    `jsOr` / `jsOrNum`, `a ?? b` is `jsNullish`.
  * Database rows (`TeamStats`, `Game`, `BettingPercentage`,
    `LineMovement`) are structures holding only the fields the core
    reads; `capturedAt` timestamps are modelled as `ℤ`.
  * Template-literal strings are rebuilt with `jsToFixed` /
    `jsNumToString` (Number.prototype.toFixed rounds ties toward the
    larger n per the ECMAScript spec; template interpolation of the
    dyadic constants appearing in the source prints an integer without a
    decimal point and a half with one decimal).
-/

namespace Jobu

/-- Math.round: round half toward positive infinity. -/
def jround (x : ℚ) : ℤ := ⌊x + 1/2⌋

/-- Math.round(x * 10) / 10 — the one-decimal rounding applied at output
boundaries throughout the source. -/
def round1 (x : ℚ) : ℚ := (jround (x * 10) : ℚ) / 10

/-- JS truthiness of a nullable number: null and 0 are falsy. -/
def truthy : Option ℚ → Bool
  | none => false
  | some x => x != 0

/-- JS `a || b` on nullable numbers: returns `a` when truthy, else `b`. -/
def jsOr (a b : Option ℚ) : Option ℚ := if truthy a then a else b

/-- JS `a || b` when `a` is a plain number: `a` when nonzero, else `b`. -/
def jsOrNum (a b : ℚ) : ℚ := if a = 0 then b else a

/-- JS `a ?? b` (nullish coalescing): only null falls through. -/
def jsNullish (a b : Option ℚ) : Option ℚ :=
  match a with
  | some v => some v
  | none => b

/-- JS `a || b` on nullable objects: only null/undefined falls through. -/
def jsOrObj {α : Type} (a b : Option α) : Option α :=
  match a with
  | some v => some v
  | none => b

/-- Math.sign. -/
def jsign (x : ℚ) : ℚ := if 0 < x then 1 else if x < 0 then -1 else 0

/-- Number.prototype.toFixed(d): decimal string of the nearest multiple
of 10^(-d), ties toward the larger value. -/
def jsToFixed (x : ℚ) (d : ℕ) : String :=
  let n : ℤ := ⌊x * (10 : ℚ) ^ d + 1/2⌋
  let sign := if n < 0 then "-" else ""
  let m := n.natAbs
  if d = 0 then sign ++ toString m
  else
    let p : ℕ := 10 ^ d
    let ip := m / p
    let fp := m % p
    let fpStr := toString fp
    let padded := String.mk (List.replicate (d - fpStr.length) '0') ++ fpStr
    sign ++ toString ip ++ "." ++ padded

/-- Template-literal interpolation of the numbers the source interpolates
(integers and exact tenths): integers print without a decimal point. -/
def jsNumToString (x : ℚ) : String :=
  if x.den = 1 then toString x.num else jsToFixed x 1

/-! ## Data model (shared/schema.ts), restricted to the fields the core reads -/

/-- One team_stats row; every numeric field is nullable. -/
structure TeamStats where
  offensivePPP : Option ℚ := none
  defensivePPP : Option ℚ := none
  offensiveRating : Option ℚ := none
  defensiveRating : Option ℚ := none
  pace : Option ℚ := none
  possessionsPerGame : Option ℚ := none
  playsPerGame : Option ℚ := none
  effectiveFieldGoalPct : Option ℚ := none
  turnoverPct : Option ℚ := none
  offensiveReboundPct : Option ℚ := none
  freeThrowRate : Option ℚ := none
  threePointPct : Option ℚ := none
  threePointRate : Option ℚ := none
  yardsPerPlay : Option ℚ := none
  opponentYardsPerPlay : Option ℚ := none
  strengthOfSchedule : Option ℚ := none
  deriving DecidableEq

/-- The fields of a games row that generateProjection reads. -/
structure Game where
  sport : String
  awayTeamName : String
  homeTeamName : String
  isNeutralSite : Option Bool := none
  deriving DecidableEq

/-! ## Constant tables of part_008 -/

structure BlendWeights where
  homeAway : ℚ
  season : ℚ
  recent : ℚ
  deriving DecidableEq

/-- BLEND_WEIGHTS[sport] || BLEND_WEIGHTS.NFL — the lookup-with-fallback
the source performs at each use site. -/
def BLEND_WEIGHTS (sport : String) : BlendWeights :=
  if sport = "NFL" then ⟨55, 35, 10⟩
  else if sport = "NBA" then ⟨50, 40, 10⟩
  else if sport = "CFB" then ⟨55, 35, 10⟩
  else if sport = "CBB" then ⟨50, 40, 10⟩
  else ⟨55, 35, 10⟩

structure VenueAdjustment where
  home : ℚ
  away : ℚ
  deriving DecidableEq

/-- VENUE_ADJUSTMENTS[sport] || VENUE_ADJUSTMENTS.NFL. -/
def VENUE_ADJUSTMENTS (sport : String) : VenueAdjustment :=
  if sport = "NFL" then ⟨2.5, -2.5⟩
  else if sport = "NBA" then ⟨3.0, -3.0⟩
  else if sport = "CFB" then ⟨3.0, -3.0⟩
  else if sport = "CBB" then ⟨4.0, -4.0⟩
  else ⟨2.5, -2.5⟩

structure DefaultMetrics where
  offEff : ℚ
  defEff : ℚ
  pace : ℚ
  deriving DecidableEq

/-- DEFAULT_METRICS[sport] || DEFAULT_METRICS.NFL. -/
def DEFAULT_METRICS (sport : String) : DefaultMetrics :=
  if sport = "NFL" then ⟨21, 21, 23⟩
  else if sport = "NBA" then ⟨114, 114, 100⟩
  else if sport = "CFB" then ⟨28, 28, 70⟩
  else if sport = "CBB" then ⟨105, 105, 68⟩
  else ⟨21, 21, 23⟩

structure RestConfig where
  backToBack : ℚ
  backToBackAway : ℚ
  threeInFour : ℚ
  extraRest : ℚ
  deriving DecidableEq

/-- REST_ADJUSTMENTS[sport] || REST_ADJUSTMENTS.NFL. -/
def REST_ADJUSTMENTS (sport : String) : RestConfig :=
  if sport = "NBA" then ⟨-3.0, -4.5, -1.5, 1.0⟩
  else if sport = "CBB" then ⟨-2.0, -3.0, -1.0, 0.5⟩
  else if sport = "NFL" then ⟨0, 0, 0, 0⟩
  else if sport = "CFB" then ⟨0, 0, 0, 0⟩
  else ⟨0, 0, 0, 0⟩

structure FirstHalfRatio where
  totalPct : ℚ
  spreadPct : ℚ
  deriving DecidableEq

/-- FIRST_HALF_RATIOS[sport]: a genuine lookup (a miss gives undefined;
each use site supplies its own fallback). -/
def FIRST_HALF_RATIOS (sport : String) : Option FirstHalfRatio :=
  if sport = "NBA" then some ⟨0.485, 0.47⟩
  else if sport = "CBB" then some ⟨0.48, 0.46⟩
  else if sport = "NFL" then some ⟨0.47, 0.45⟩
  else if sport = "CFB" then some ⟨0.47, 0.45⟩
  else none

structure LeagueAverages where
  effectiveFieldGoalPct : ℚ
  turnoverPct : ℚ
  offensiveReboundPct : ℚ
  freeThrowRate : ℚ
  pace : ℚ
  offRating : ℚ
  defRating : ℚ
  deriving DecidableEq

/-- LEAGUE_AVERAGES[sport] — NBA and CBB only. -/
def LEAGUE_AVERAGES (sport : String) : Option LeagueAverages :=
  if sport = "NBA" then some ⟨54.0, 13.5, 25.5, 27.0, 100, 114, 114⟩
  else if sport = "CBB" then some ⟨50.0, 17.5, 28.0, 32.0, 68, 105, 105⟩
  else none

/-- FOUR_FACTORS_WEIGHTS (the remaining 0.06 is covered by pace/other). -/
def FOUR_FACTORS_WEIGHTS_efg : ℚ := 0.40
def FOUR_FACTORS_WEIGHTS_tov : ℚ := 0.25
def FOUR_FACTORS_WEIGHTS_orb : ℚ := 0.14
def FOUR_FACTORS_WEIGHTS_ftr : ℚ := 0.15

/-! ## StatBlender -/

/-- The TeamMetrics value produced by blendTeamStats. -/
structure TeamMetrics where
  offensiveEfficiency : ℚ
  defensiveEfficiency : ℚ
  pace : ℚ
  strengthOfSchedule : ℚ
  effectiveFieldGoalPct : Option ℚ
  turnoverPct : Option ℚ
  offensiveReboundPct : Option ℚ
  freeThrowRate : Option ℚ
  oppEffectiveFieldGoalPct : Option ℚ
  oppTurnoverPct : Option ℚ
  oppFreeThrowRate : Option ℚ
  threePointPct : Option ℚ
  threePointRate : Option ℚ
  deriving DecidableEq

/-- Ratings below 2 are assumed to be fractions and scaled by 100. -/
def normalizeBasketballRating (val : ℚ) : ℚ := if val < 2 then val * 100 else val

/-- The getOffEff closure of blendTeamStats, lifted to the top level with
the captured sport as an argument.  Football: `stats.offensivePPP ||
stats.yardsPerPlay ? (stats.offensivePPP || 0) * 7 : null`; basketball:
`rating = stats.offensiveRating || stats.offensivePPP; rating ?
normalizeBasketballRating(rating) : null`. -/
def getOffEff (sport : String) (stats : Option TeamStats) : Option ℚ :=
  match stats with
  | none => none
  | some s =>
    if sport = "NFL" ∨ sport = "CFB" then
      if truthy (jsOr s.offensivePPP s.yardsPerPlay) then
        some ((s.offensivePPP.getD 0) * 7)
      else none
    else
      let rating := jsOr s.offensiveRating s.offensivePPP
      if truthy rating then rating.map normalizeBasketballRating else none

/-- The getDefEff closure of blendTeamStats (symmetric to getOffEff). -/
def getDefEff (sport : String) (stats : Option TeamStats) : Option ℚ :=
  match stats with
  | none => none
  | some s =>
    if sport = "NFL" ∨ sport = "CFB" then
      if truthy (jsOr s.defensivePPP s.opponentYardsPerPlay) then
        some ((s.defensivePPP.getD 0) * 7)
      else none
    else
      let rating := jsOr s.defensiveRating s.defensivePPP
      if truthy rating then rating.map normalizeBasketballRating else none

/-- The getPace closure: `stats.pace || stats.possessionsPerGame ||
stats.playsPerGame` (a raw `||`-chain, so a trailing 0 can be returned). -/
def getPace (stats : Option TeamStats) : Option ℚ :=
  match stats with
  | none => none
  | some s => jsOr (jsOr s.pace s.possessionsPerGame) s.playsPerGame

/-- The weighted-average block of blendTeamStats (the source repeats this
code verbatim for offensive and for defensive efficiency): drop the
weights of null inputs, divide by the sum of the weights actually used,
keep the sport default when nothing is available. -/
def blendWeighted (primaryVal seasonVal recentVal : Option ℚ)
    (w : BlendWeights) (dflt : ℚ) : ℚ :=
  if primaryVal.isSome ∨ seasonVal.isSome ∨ recentVal.isSome then
    let weightedSum :=
      (match primaryVal with | some v => v * w.homeAway | none => 0)
      + (match seasonVal with | some v => v * w.season | none => 0)
      + (match recentVal with | some v => v * w.recent | none => 0)
    let totalWeight :=
      (if primaryVal.isSome then w.homeAway else 0)
      + (if seasonVal.isSome then w.season else 0)
      + (if recentVal.isSome then w.recent else 0)
    if 0 < totalWeight then weightedSum / totalWeight else dflt
  else dflt

/-- blendTeamStats (part_008 lines 161–286). -/
def blendTeamStats (homeStats awayStats seasonStats recentStats : Option TeamStats)
    (sport : String) : TeamMetrics :=
  let weights := BLEND_WEIGHTS sport
  let defaults := DEFAULT_METRICS sport
  let primary := jsOrObj homeStats awayStats
  let offEff := blendWeighted (getOffEff sport primary) (getOffEff sport seasonStats)
    (getOffEff sport recentStats) weights defaults.offEff
  let defEff := blendWeighted (getDefEff sport primary) (getDefEff sport seasonStats)
    (getDefEff sport recentStats) weights defaults.defEff
  let pace :=
    match getPace primary with
    | some p => p
    | none =>
      match getPace seasonStats with
      | some p => p
      | none => defaults.pace
  let sos := (seasonStats.bind (fun s => jsOr s.strengthOfSchedule (some 0))).getD 0
  let bestStats := jsOrObj primary seasonStats
  { offensiveEfficiency := offEff
    defensiveEfficiency := defEff
    pace := pace
    strengthOfSchedule := sos
    effectiveFieldGoalPct :=
      jsNullish (bestStats.bind (·.effectiveFieldGoalPct)) (seasonStats.bind (·.effectiveFieldGoalPct))
    turnoverPct := jsNullish (bestStats.bind (·.turnoverPct)) (seasonStats.bind (·.turnoverPct))
    offensiveReboundPct :=
      jsNullish (bestStats.bind (·.offensiveReboundPct)) (seasonStats.bind (·.offensiveReboundPct))
    freeThrowRate := jsNullish (bestStats.bind (·.freeThrowRate)) (seasonStats.bind (·.freeThrowRate))
    oppEffectiveFieldGoalPct := none
    oppTurnoverPct := none
    oppFreeThrowRate := none
    threePointPct := jsNullish (bestStats.bind (·.threePointPct)) (seasonStats.bind (·.threePointPct))
    threePointRate := jsNullish (bestStats.bind (·.threePointRate)) (seasonStats.bind (·.threePointRate)) }

/-! ## PossessionModel -/

structure PaceResult where
  possessions : ℚ
  paceClash : ℚ
  driver : Option String
  deriving DecidableEq

/-- The driver string of the pace-clash branch:
`Pace clash: ${paceDiff.toFixed(1)} poss diff — ${slowerTeam} team
controls tempo (${slowerPace.toFixed(0)} vs ${fasterPace.toFixed(0)})`. -/
def paceClashDriver (paceDiff slowerPace fasterPace : ℚ) (slowerTeam : String) : String :=
  "Pace clash: " ++ jsToFixed paceDiff 1 ++ " poss diff — " ++ slowerTeam
    ++ " team controls tempo (" ++ jsToFixed slowerPace 0 ++ " vs "
    ++ jsToFixed fasterPace 0 ++ ")"

/-- calculateExpectedPossessions (part_008 lines 289–323).  The source
also computes a `leagueAvg` from PACE_NORMS that it never uses; that dead
binding is omitted here. -/
def calculateExpectedPossessions (awayPace homePace : ℚ) (sport : String) : PaceResult :=
  let avgPace := (awayPace + homePace) / 2
  let paceDiff := |awayPace - homePace|
  if 3 < paceDiff ∧ (sport = "NBA" ∨ sport = "CBB") then
    let slowerPace := min awayPace homePace
    let fasterPace := max awayPace homePace
    let adjustedPace := slowerPace * 0.6 + fasterPace * 0.4
    let paceClash := adjustedPace - avgPace
    let slowerTeam := if awayPace < homePace then "away" else "home"
    let driver := paceClashDriver paceDiff slowerPace fasterPace slowerTeam
    let venueAdjustedPace := adjustedPace * 1.005
    { possessions := venueAdjustedPace, paceClash := paceClash, driver := some driver }
  else
    let venueAdjustedPace := avgPace * 1.01
    { possessions := venueAdjustedPace, paceClash := 0, driver := none }

/-! ## FourFactorsAnalyzer -/

structure FourFactorsEdge where
  totalEdge : ℚ
  efgEdge : ℚ
  tovEdge : ℚ
  orbEdge : ℚ
  ftRateEdge : ℚ
  drivers : List String
  deriving DecidableEq

/-- analyzeFourFactors (part_008 lines 326–406).  Each per-factor block
runs only when the field is truthy on both sides (JS `&&`, so a present
0 is skipped), accumulates the weighted point edge, and emits a driver
when the two sides differ by more than the per-factor threshold. -/
def analyzeFourFactors (awayMetrics homeMetrics : TeamMetrics) (sport : String) :
    Option FourFactorsEdge :=
  if sport ≠ "NBA" ∧ sport ≠ "CBB" then none
  else
    match LEAGUE_AVERAGES sport with
    | none => none
    | some leagueAvg =>
      if ¬ truthy awayMetrics.effectiveFieldGoalPct ∧ ¬ truthy homeMetrics.effectiveFieldGoalPct
      then none
      else
        let efgPair :=
          if truthy awayMetrics.effectiveFieldGoalPct ∧ truthy homeMetrics.effectiveFieldGoalPct then
            let a := awayMetrics.effectiveFieldGoalPct.getD 0
            let h := homeMetrics.effectiveFieldGoalPct.getD 0
            let awayDev := a - leagueAvg.effectiveFieldGoalPct
            let homeDev := h - leagueAvg.effectiveFieldGoalPct
            let edge := (homeDev - awayDev) * 1.2 * FOUR_FACTORS_WEIGHTS_efg
            let ds :=
              if 2.0 < |h - a| then
                let better := if a < h then "Home" else "Away"
                [better ++ " eFG% edge: " ++ jsToFixed h 1 ++ "% vs " ++ jsToFixed a 1 ++ "%"]
              else []
            (edge, ds)
          else ((0 : ℚ), ([] : List String))
        let tovPair :=
          if truthy awayMetrics.turnoverPct ∧ truthy homeMetrics.turnoverPct then
            let a := awayMetrics.turnoverPct.getD 0
            let h := homeMetrics.turnoverPct.getD 0
            let awayDev := a - leagueAvg.turnoverPct
            let homeDev := h - leagueAvg.turnoverPct
            let edge := (awayDev - homeDev) * 0.8 * FOUR_FACTORS_WEIGHTS_tov
            let ds :=
              if 2.0 < |h - a| then
                let better := if h < a then "Home" else "Away"
                [better ++ " turnover edge: " ++ jsToFixed h 1 ++ "% vs " ++ jsToFixed a 1 ++ "%"]
              else []
            (edge, ds)
          else ((0 : ℚ), ([] : List String))
        let orbPair :=
          if truthy awayMetrics.offensiveReboundPct ∧ truthy homeMetrics.offensiveReboundPct then
            let a := awayMetrics.offensiveReboundPct.getD 0
            let h := homeMetrics.offensiveReboundPct.getD 0
            let awayDev := a - leagueAvg.offensiveReboundPct
            let homeDev := h - leagueAvg.offensiveReboundPct
            let edge := (homeDev - awayDev) * 0.5 * FOUR_FACTORS_WEIGHTS_orb
            let ds :=
              if 3.0 < |h - a| then
                let better := if a < h then "Home" else "Away"
                [better ++ " rebounding edge: " ++ jsToFixed h 1 ++ "% vs " ++ jsToFixed a 1 ++ "%"]
              else []
            (edge, ds)
          else ((0 : ℚ), ([] : List String))
        let ftPair :=
          if truthy awayMetrics.freeThrowRate ∧ truthy homeMetrics.freeThrowRate then
            let a := awayMetrics.freeThrowRate.getD 0
            let h := homeMetrics.freeThrowRate.getD 0
            let awayDev := a - leagueAvg.freeThrowRate
            let homeDev := h - leagueAvg.freeThrowRate
            let edge := (homeDev - awayDev) * 0.3 * FOUR_FACTORS_WEIGHTS_ftr
            let ds :=
              if 5.0 < |h - a| then
                let better := if a < h then "Home" else "Away"
                [better ++ " FT rate edge: " ++ jsToFixed h 1 ++ " vs " ++ jsToFixed a 1]
              else []
            (edge, ds)
          else ((0 : ℚ), ([] : List String))
        let totalEdge := efgPair.1 + tovPair.1 + orbPair.1 + ftPair.1
        some
          { totalEdge := round1 totalEdge
            efgEdge := round1 efgPair.1
            tovEdge := round1 tovPair.1
            orbEdge := round1 orbPair.1
            ftRateEdge := round1 ftPair.1
            drivers := efgPair.2 ++ tovPair.2 ++ orbPair.2 ++ ftPair.2 }

/-! ## RestAdjuster -/

structure RestAdjustment where
  home : ℚ
  away : ℚ
  drivers : List String
  deriving DecidableEq

/-- calculateRestAdjustment (part_008 lines 409–450). -/
def calculateRestAdjustment (sport : String) (homeRestDays awayRestDays : Option ℚ)
    (isAwayTeamTraveling : Bool) : RestAdjustment :=
  let restConfig := REST_ADJUSTMENTS sport
  let homePair : ℚ × List String :=
    match homeRestDays with
    | none => (0, [])
    | some d =>
      if d = 0 then
        (restConfig.backToBack,
          ["Home team on back-to-back (" ++ jsNumToString restConfig.backToBack ++ " pts)"])
      else if 2 ≤ d then
        (restConfig.extraRest,
          if restConfig.extraRest ≠ 0 then
            ["Home team extra rest: " ++ jsNumToString d ++ " days off (+"
              ++ jsNumToString restConfig.extraRest ++ " pts)"]
          else [])
      else (0, [])
  let awayPair : ℚ × List String :=
    match awayRestDays with
    | none => (0, [])
    | some d =>
      if d = 0 ∧ isAwayTeamTraveling then
        (restConfig.backToBackAway,
          ["Away team B2B + travel (" ++ jsNumToString restConfig.backToBackAway ++ " pts)"])
      else if d = 0 then
        (restConfig.backToBack,
          ["Away team on back-to-back (" ++ jsNumToString restConfig.backToBack ++ " pts)"])
      else if 2 ≤ d then
        (restConfig.extraRest,
          if restConfig.extraRest ≠ 0 then
            ["Away team extra rest: " ++ jsNumToString d ++ " days off (+"
              ++ jsNumToString restConfig.extraRest ++ " pts)"]
          else [])
      else (0, [])
  { home := homePair.1, away := awayPair.1, drivers := homePair.2 ++ awayPair.2 }

/-! ## ScoreProjector -/

/-- calculateProjectedScores (part_008 lines 453–484). -/
def calculateProjectedScores (awayOffEff awayDefEff homeOffEff homeDefEff : ℚ)
    (expectedPossessions : ℚ) (sport : String) (isNeutralSite : Bool) : ℚ × ℚ :=
  let venueAdj := VENUE_ADJUSTMENTS sport
  let scores : ℚ × ℚ :=
    if sport = "NFL" ∨ sport = "CFB" then
      let awayPPP := (awayOffEff + homeDefEff) / 2 / 7
      let homePPP := (homeOffEff + awayDefEff) / 2 / 7
      (awayPPP * expectedPossessions, homePPP * expectedPossessions)
    else
      (((awayOffEff + homeDefEff) / 2) * (expectedPossessions / 100),
        ((homeOffEff + awayDefEff) / 2) * (expectedPossessions / 100))
  if ¬ isNeutralSite then
    (scores.1 + venueAdj.away / 2, scores.2 + venueAdj.home / 2)
  else scores

/-! ## Volatility and kill switches -/

structure VolatilityResult where
  score : ℤ
  drivers : List String
  deriving DecidableEq

/-- calculateVolatility (part_008 lines 487–563): baseline 45, additive
terms with drivers, final `Math.min(100, Math.max(0, Math.round(v)))`. -/
def calculateVolatility (awayMetrics homeMetrics : TeamMetrics) (marginDiff : ℚ)
    (sport : String) (fourFactorsEdge : Option FourFactorsEdge)
    (restAdjHome restAdjAway : ℚ) : VolatilityResult :=
  let sosDiff := |awayMetrics.strengthOfSchedule - homeMetrics.strengthOfSchedule|
  let sosPair : ℚ × List String :=
    if 2 < sosDiff then
      (min 15 (sosDiff * 4), ["SoS mismatch: " ++ jsToFixed sosDiff 1 ++ " difference"])
    else (0, [])
  let marginPair : ℚ × List String :=
    if |marginDiff| < 2 then (18, ["Near pick\x27em game — high variance"])
    else if |marginDiff| < 4 then (10, ["Tight projected margin"])
    else if |marginDiff| < 7 then (3, [])
    else (0, [])
  let collegePair : ℚ × List String :=
    if sport = "CFB" ∨ sport = "CBB" then
      (8, ["College sport: higher variance baseline"])
    else (0, [])
  let paceDiff := |awayMetrics.pace - homeMetrics.pace|
  let pacePair : ℚ × List String :=
    if 5 < paceDiff ∧ (sport = "NBA" ∨ sport = "CBB") then
      (min 10 (paceDiff * 1.5), ["Pace mismatch: " ++ jsToFixed paceDiff 0 ++ " possessions apart"])
    else (0, [])
  let ffDisagreePair : ℚ × List String :=
    match fourFactorsEdge with
    | some ff =>
      if 2 < |ff.totalEdge|
          ∧ ((0 < ff.totalEdge ∧ marginDiff < 0) ∨ (ff.totalEdge < 0 ∧ 0 < marginDiff)) then
        (8, ["Four Factors and efficiency disagree — conflicting signals"])
      else (0, [])
    | none => (0, [])
  let restPair : ℚ × List String :=
    if 3 ≤ |restAdjHome| ∨ 3 ≤ |restAdjAway| then
      (5, ["Back-to-back in play — fatigue adds variance"])
    else (0, [])
  let hasHomeFourFactors := homeMetrics.effectiveFieldGoalPct ≠ none
  let hasAwayFourFactors := awayMetrics.effectiveFieldGoalPct ≠ none
  let missingPair : ℚ × List String :=
    if ¬ hasHomeFourFactors ∨ ¬ hasAwayFourFactors then
      (5, ["Incomplete Four Factors data"])
    else (0, [])
  let bonusPair : ℚ × List String :=
    match fourFactorsEdge with
    | some ff =>
      if 8 < |marginDiff| ∧ jsign ff.totalEdge = jsign marginDiff then
        (-8, ["Large edge + Four Factors alignment — lower variance"])
      else (0, [])
    | none => (0, [])
  let volatility := 45 + sosPair.1 + marginPair.1 + collegePair.1 + pacePair.1
    + ffDisagreePair.1 + restPair.1 + missingPair.1 + bonusPair.1
  let finalScore := min 100 (max 0 (jround volatility))
  { score := finalScore
    drivers := sosPair.2 ++ marginPair.2 ++ collegePair.2 ++ pacePair.2
      ++ ffDisagreePair.2 ++ restPair.2 ++ missingPair.2 ++ bonusPair.2 }

/-- generateKillSwitches (part_008 lines 566–600). -/
def generateKillSwitches (volatilityScore : ℤ) (edge : ℚ)
    (fourFactorsEdge : Option FourFactorsEdge) (restAdjHome restAdjAway : ℚ)
    (awayMetrics homeMetrics : TeamMetrics) : List String :=
  (if 70 < volatilityScore ∧ edge < 3 then
    ["High volatility with small edge — consider passing"]
  else [])
  ++ (match fourFactorsEdge with
    | some ff =>
      if 1.5 < |ff.totalEdge| then
        ["Four Factors divergence detected — verify play direction"]
      else []
    | none => [])
  ++ (if 4 < |restAdjHome - restAdjAway| then
    ["Major rest disparity — factor heavily into decision"]
  else [])
  ++ (if ¬ truthy awayMetrics.effectiveFieldGoalPct ∧ ¬ truthy homeMetrics.effectiveFieldGoalPct then
    ["No Four Factors data — projection based solely on efficiency ratings"]
  else [])

/-! ## ProjectionAssembler -/

structure FirstHalfProjection where
  fairSpread : ℚ
  fairTotal : ℚ
  projectedAwayScore : ℚ
  projectedHomeScore : ℚ
  deriving DecidableEq

structure ProjectionResult where
  projectedAwayScore : ℚ
  projectedHomeScore : ℚ
  projectedTotal : ℚ
  projectedMargin : ℚ
  fairSpread : ℚ
  fairTotal : ℚ
  expectedPossessions : ℚ
  volatilityScore : ℤ
  volatilityDrivers : List String
  blendBreakdown : BlendWeights
  sosAdjustment : ℚ
  fourFactorsEdge : Option FourFactorsEdge
  restAdjustment : RestAdjustment
  paceClashAdjustment : ℚ
  drivers : List String
  killSwitches : List String
  firstHalf : FirstHalfProjection
  deriving DecidableEq

/-- The per-team stats bundle passed to generateProjection. -/
structure TeamStatsBundle where
  home : Option TeamStats := none
  away : Option TeamStats := none
  season : Option TeamStats := none
  recent : Option TeamStats := none
  deriving DecidableEq

/-- The optional options argument of generateProjection. -/
structure ProjectionOptions where
  homeRestDays : Option ℚ := none
  awayRestDays : Option ℚ := none
  isAwayTeamTraveling : Option Bool := none
  deriving DecidableEq

/-- generateProjection (part_008 lines 603–794). -/
def generateProjection (game : Game) (awayTeamStats homeTeamStats : TeamStatsBundle)
    (options : Option ProjectionOptions) : ProjectionResult :=
  let sport := game.sport
  let weights := BLEND_WEIGHTS sport
  let awayMetrics := blendTeamStats awayTeamStats.away none awayTeamStats.season
    awayTeamStats.recent sport
  let homeMetrics := blendTeamStats homeTeamStats.home none homeTeamStats.season
    homeTeamStats.recent sport
  let paceResult := calculateExpectedPossessions awayMetrics.pace homeMetrics.pace sport
  let baseScores := calculateProjectedScores awayMetrics.offensiveEfficiency
    awayMetrics.defensiveEfficiency homeMetrics.offensiveEfficiency
    homeMetrics.defensiveEfficiency paceResult.possessions sport
    (game.isNeutralSite.getD false)
  let fourFactorsEdge := analyzeFourFactors awayMetrics homeMetrics sport
  let restAdj := calculateRestAdjustment sport
    (options.bind (·.homeRestDays))
    (options.bind (·.awayRestDays))
    ((options.bind (·.isAwayTeamTraveling)).getD true)
  let sosDiff := homeMetrics.strengthOfSchedule - awayMetrics.strengthOfSchedule
  let sosAdjustment := sosDiff * 0.5
  let adjustedAwayScore0 := baseScores.1 - sosAdjustment / 2
  let adjustedHomeScore0 := baseScores.2 + sosAdjustment / 2
  let adjustedAwayScore1 :=
    match fourFactorsEdge with
    | some ff => adjustedAwayScore0 - ff.totalEdge / 2
    | none => adjustedAwayScore0
  let adjustedHomeScore1 :=
    match fourFactorsEdge with
    | some ff => adjustedHomeScore0 + ff.totalEdge / 2
    | none => adjustedHomeScore0
  let adjustedAwayScore := adjustedAwayScore1 + restAdj.away
  let adjustedHomeScore := adjustedHomeScore1 + restAdj.home
  let projectedTotal := adjustedAwayScore + adjustedHomeScore
  let projectedMargin := adjustedHomeScore - adjustedAwayScore
  let fairSpread := -projectedMargin
  let fairTotal := projectedTotal
  let volatilityResult := calculateVolatility awayMetrics homeMetrics projectedMargin
    sport fourFactorsEdge restAdj.home restAdj.away
  let killSwitches := generateKillSwitches volatilityResult.score |projectedMargin|
    fourFactorsEdge restAdj.home restAdj.away awayMetrics homeMetrics
  let offDrivers :=
    if 5 < |awayMetrics.offensiveEfficiency - homeMetrics.offensiveEfficiency| then
      let betterOff :=
        if homeMetrics.offensiveEfficiency < awayMetrics.offensiveEfficiency then
          game.awayTeamName
        else game.homeTeamName
      [betterOff ++ " has significant offensive efficiency advantage"]
    else []
  let defDrivers :=
    if 5 < |awayMetrics.defensiveEfficiency - homeMetrics.defensiveEfficiency| then
      let betterDef :=
        if awayMetrics.defensiveEfficiency < homeMetrics.defensiveEfficiency then
          game.awayTeamName
        else game.homeTeamName
      [betterDef ++ " has defensive edge"]
    else []
  let paceDrivers := match paceResult.driver with | some d => [d] | none => []
  let sosDrivers :=
    if 1 < |sosAdjustment| then
      ["SoS adjustment of " ++ (if 0 < sosAdjustment then "+" else "")
        ++ jsToFixed sosAdjustment 1 ++ " points"]
    else []
  let ffDrivers :=
    match fourFactorsEdge with
    | some ff =>
      ff.drivers ++
        (if 1 < |ff.totalEdge| then
          ["Four Factors net edge: " ++ (if 0 < ff.totalEdge then "+" else "")
            ++ jsToFixed ff.totalEdge 1 ++ " pts (Home)"]
        else [])
    | none => []
  let threePtDrivers :=
    if truthy awayMetrics.threePointPct ∧ truthy homeMetrics.threePointPct then
      let a := awayMetrics.threePointPct.getD 0
      let h := homeMetrics.threePointPct.getD 0
      if 3 < |a - h| then
        let better := if h < a then game.awayTeamName else game.homeTeamName
        [better ++ " 3PT edge: " ++ jsToFixed (max a h) 1 ++ "% vs " ++ jsToFixed (min a h) 1 ++ "%"]
      else []
    else []
  let drivers := offDrivers ++ defDrivers ++ paceDrivers ++ sosDrivers ++ ffDrivers
    ++ restAdj.drivers ++ threePtDrivers
  let fhRatios := (FIRST_HALF_RATIOS sport).getD ⟨0.485, 0.47⟩
  let fhTotal := fairTotal * fhRatios.totalPct
  let fhSpread := fairSpread * fhRatios.spreadPct
  let fhAwayScore := adjustedAwayScore * fhRatios.totalPct
  let fhHomeScore := adjustedHomeScore * fhRatios.totalPct
  { projectedAwayScore := round1 adjustedAwayScore
    projectedHomeScore := round1 adjustedHomeScore
    projectedTotal := round1 projectedTotal
    projectedMargin := round1 projectedMargin
    fairSpread := round1 fairSpread
    fairTotal := round1 fairTotal
    expectedPossessions := round1 paceResult.possessions
    volatilityScore := volatilityResult.score
    volatilityDrivers := volatilityResult.drivers
    blendBreakdown := weights
    sosAdjustment := round1 sosAdjustment
    fourFactorsEdge := fourFactorsEdge
    restAdjustment := restAdj
    paceClashAdjustment := round1 paceResult.paceClash
    drivers := drivers
    killSwitches := killSwitches
    firstHalf :=
      { fairSpread := round1 fhSpread
        fairTotal := round1 fhTotal
        projectedAwayScore := round1 fhAwayScore
        projectedHomeScore := round1 fhHomeScore } }

/-! ## EdgeDetector -/

/-- JS truthiness of `fourFactorsEdge && Math.abs(totalEdge) > 1`. -/
def hasFourFactorsAlignment : Option FourFactorsEdge → Bool
  | some ff => decide (1 < |ff.totalEdge|)
  | none => false

/-- getConfidenceEnhanced (part_008 lines 847–876). -/
def getConfidenceEnhanced (edgePct volatility : ℚ) (fourFactorsEdge : Option FourFactorsEdge)
    (killSwitchCount : ℕ) (sport : String) : String :=
  if 2 ≤ killSwitchCount then "Lean"
  else if sport = "NBA" ∨ sport = "CBB" then
    if 4.5 ≤ edgePct ∧ volatility < 50 ∧ killSwitchCount = 0 then
      if hasFourFactorsAlignment fourFactorsEdge then "High"
      else if 5.5 ≤ edgePct then "High" else "Medium"
    else if 3.0 ≤ edgePct ∧ volatility < 60 then "Medium"
    else if 2.0 ≤ edgePct then "Lean"
    else "Lean"
  else
    if 4.0 ≤ edgePct ∧ volatility < 55 ∧ killSwitchCount = 0 then "High"
    else if 2.5 ≤ edgePct ∧ volatility < 65 then "Medium"
    else "Lean"

/-- The fields of an opportunities row that identifyOpportunities fills. -/
structure InsertOpportunity where
  gameId : ℤ
  projectionId : Option ℤ
  sport : String
  marketType : String
  side : String
  playDescription : String
  currentLine : Option ℚ
  currentOdds : ℤ
  fairLine : Option ℚ
  edgePercentage : ℚ
  confidence : String
  volatilityScore : ℤ
  isReverseLineMovement : Bool
  ticketPercentage : Option ℚ
  moneyPercentage : Option ℚ
  drivers : List String
  killSwitches : Option (List String)
  status : String
  result : Option String
  deriving DecidableEq

/-- identifyOpportunities (part_008 lines 879–1008): spread, total and
first-half-spread checks, pushed in that order. -/
def identifyOpportunities (gameId : ℤ) (sport : String) (projection : ProjectionResult)
    (currentSpread currentTotal : Option ℚ) : List InsertOpportunity :=
  let spreadOpps : List InsertOpportunity :=
    match currentSpread with
    | none => []
    | some cs =>
      let spreadEdge := projection.fairSpread - cs
      let spreadEdgePct := |spreadEdge| / |jsOrNum cs 1| * 100
      if 1 ≤ |spreadEdge| then
        let side := if 0 < spreadEdge then "away" else "home"
        let confidence := getConfidenceEnhanced spreadEdgePct
          (projection.volatilityScore : ℚ) projection.fourFactorsEdge
          projection.killSwitches.length sport
        [{ gameId := gameId
           projectionId := none
           sport := sport
           marketType := "spread"
           side := side
           playDescription := (if side = "home" then "Home" else "Away") ++ " "
             ++ (if 0 < cs then "+" else "") ++ jsNumToString cs
           currentLine := some cs
           currentOdds := -110
           fairLine := some projection.fairSpread
           edgePercentage := round1 spreadEdgePct
           confidence := confidence
           volatilityScore := projection.volatilityScore
           isReverseLineMovement := false
           ticketPercentage := none
           moneyPercentage := none
           drivers := projection.drivers
           killSwitches :=
             if 0 < projection.killSwitches.length then some projection.killSwitches else none
           status := "active"
           result := none }]
      else []
  let totalOpps : List InsertOpportunity :=
    match currentTotal with
    | none => []
    | some ct =>
      let totalEdge := projection.fairTotal - ct
      let totalEdgePct := |totalEdge| / ct * 100
      if 2 ≤ |totalEdge| then
        let side := if 0 < totalEdge then "over" else "under"
        let confidence := getConfidenceEnhanced totalEdgePct
          (projection.volatilityScore : ℚ) projection.fourFactorsEdge
          projection.killSwitches.length sport
        [{ gameId := gameId
           projectionId := none
           sport := sport
           marketType := "total"
           side := side
           playDescription := (if side = "over" then "Over" else "Under") ++ " " ++ jsNumToString ct
           currentLine := some ct
           currentOdds := -110
           fairLine := some projection.fairTotal
           edgePercentage := round1 totalEdgePct
           confidence := confidence
           volatilityScore := projection.volatilityScore
           isReverseLineMovement := false
           ticketPercentage := none
           moneyPercentage := none
           drivers := projection.drivers
           killSwitches :=
             if 0 < projection.killSwitches.length then some projection.killSwitches else none
           status := "active"
           result := none }]
      else []
  let fhOpps : List InsertOpportunity :=
    match currentSpread with
    | none => []
    | some cs =>
      let fhRatio :=
        match (FIRST_HALF_RATIOS sport).map (·.spreadPct) with
        | some v => jsOrNum v 0.47
        | none => 0.47
      let fhMarketSpread := cs * fhRatio
      let fhEdge := projection.firstHalf.fairSpread - fhMarketSpread
      let fhEdgePct := |fhEdge| / |jsOrNum fhMarketSpread 1| * 100
      if 1.5 ≤ |fhEdge| ∧ 3 ≤ fhEdgePct then
        let side := if 0 < fhEdge then "away" else "home"
        let confidence := getConfidenceEnhanced fhEdgePct
          ((projection.volatilityScore : ℚ) + 5) projection.fourFactorsEdge
          projection.killSwitches.length sport
        [{ gameId := gameId
           projectionId := none
           sport := sport
           marketType := "1h"
           side := side
           playDescription := "1H " ++ (if side = "home" then "Home" else "Away") ++ " "
             ++ (if 0 < fhMarketSpread then "+" else "") ++ jsNumToString (round1 fhMarketSpread)
           currentLine := some (round1 fhMarketSpread)
           currentOdds := -110
           fairLine := some projection.firstHalf.fairSpread
           edgePercentage := round1 fhEdgePct
           confidence := confidence
           volatilityScore := projection.volatilityScore + 5
           isReverseLineMovement := false
           ticketPercentage := none
           moneyPercentage := none
           drivers := projection.drivers ++ ["First-half play derived from full-game projection"]
           killSwitches :=
             if 0 < projection.killSwitches.length then some projection.killSwitches else none
           status := "active"
           result := none }]
      else []
  spreadOpps ++ totalOpps ++ fhOpps

/-! ## RlmDetector (src/server/services/pipeline.ts lines 488–589) -/

/-- The fields of a betting_percentages row that detectRlm reads; the
capturedAt timestamp is modelled as an integer. -/
structure BettingPercentage where
  marketType : String
  side : String
  ticketPercentage : ℚ
  moneyPercentage : ℚ
  capturedAt : ℤ
  deriving DecidableEq

/-- The fields of a line_movements row that detectRlm reads. -/
structure LineMovement where
  marketType : String
  previousValue : ℚ
  currentValue : ℚ
  capturedAt : ℤ
  deriving DecidableEq

structure RlmAnalysis where
  isRlm : Bool
  signalStrength : String
  ticketPercentage : ℚ
  moneyPercentage : ℚ
  lineMovementDirection : String
  lineMovementSize : ℚ
  side : String
  marketType : String
  deriving DecidableEq

/-- RLM_THRESHOLDS. -/
def RLM_STRONG_DIVERGENCE : ℚ := 15
def RLM_MODERATE_DIVERGENCE : ℚ := 10
def RLM_WEAK_DIVERGENCE : ℚ := 5
def RLM_STRONG_MOVEMENT : ℚ := 1.5
def RLM_MODERATE_MOVEMENT : ℚ := 1.0
def RLM_WEAK_MOVEMENT : ℚ := 0.5
def RLM_PUBLIC_THRESHOLD : ℚ := 60
def RLM_HEAVY_PUBLIC : ℚ := 70

/-- Element 0 of the list sorted descending by capturedAt (JS sort is
stable, so the first-listed element among those of maximal capturedAt). -/
def latestByCapture (l : List BettingPercentage) : Option BettingPercentage :=
  l.foldl
    (fun acc p =>
      match acc with
      | none => some p
      | some b => if b.capturedAt < p.capturedAt then some p else some b)
    none

/-- Element 0 of the list sorted ascending by capturedAt (stable sort:
the first-listed element among those of minimal capturedAt). -/
def firstByCapture (l : List LineMovement) : Option LineMovement :=
  l.foldl
    (fun acc m =>
      match acc with
      | none => some m
      | some b => if m.capturedAt < b.capturedAt then some m else some b)
    none

/-- The last element of the list sorted ascending by capturedAt (stable
sort: the last-listed element among those of maximal capturedAt). -/
def lastByCapture (l : List LineMovement) : Option LineMovement :=
  l.foldl
    (fun acc m =>
      match acc with
      | none => some m
      | some b => if b.capturedAt ≤ m.capturedAt then some m else some b)
    none

/-- The stated-side / opposite-side selection used for both the public
side and the money side. -/
def sideForPct (pct : ℚ) (side : String) : String :=
  if 50 < pct then side else (if side = "home" then "away" else "home")

/-- detectRlm (pipeline.ts lines 516–589). -/
def detectRlm (bettingPcts : List BettingPercentage) (lineMovements : List LineMovement)
    (marketType : String) : Option RlmAnalysis :=
  match latestByCapture (bettingPcts.filter (fun p => p.marketType == marketType)) with
  | none => none
  | some latestPcts =>
    let movements := lineMovements.filter (fun m => m.marketType == marketType)
    match firstByCapture movements, lastByCapture movements with
    | some firstMovement, some lastMovement =>
      let totalMovement := lastMovement.currentValue - firstMovement.previousValue
      let movementDirection := if 0 < totalMovement then "up" else "down"
      let movementSize := |totalMovement|
      let ticketPct := latestPcts.ticketPercentage
      let moneyPct := latestPcts.moneyPercentage
      let side := latestPcts.side
      let divergence := |moneyPct - ticketPct|
      let publicSide := sideForPct ticketPct side
      let moneySide := sideForPct moneyPct side
      if publicSide ≠ moneySide ∧ RLM_PUBLIC_THRESHOLD ≤ ticketPct
          ∧ RLM_WEAK_DIVERGENCE ≤ divergence ∧ RLM_WEAK_MOVEMENT ≤ movementSize then
        let signalStrength :=
          if RLM_STRONG_DIVERGENCE ≤ divergence ∧ RLM_STRONG_MOVEMENT ≤ movementSize
              ∧ RLM_HEAVY_PUBLIC ≤ ticketPct then "strong"
          else if RLM_MODERATE_DIVERGENCE ≤ divergence ∧ RLM_MODERATE_MOVEMENT ≤ movementSize then
            "moderate"
          else "weak"
        some
          { isRlm := true
            signalStrength := signalStrength
            ticketPercentage := ticketPct
            moneyPercentage := moneyPct
            lineMovementDirection := movementDirection
            lineMovementSize := movementSize
            side := moneySide
            marketType := marketType }
      else none
    | _, _ => none

end Jobu




namespace Jobu

/-! ## Rounding error bounds -/

/-- One-decimal rounding moves a value by at most 1/20. -/
lemma round1_err (x : ℚ) : |round1 x - x| ≤ 1/20 := by
  have h1 : ((⌊x * 10 + 1/2⌋ : ℤ) : ℚ) ≤ x * 10 + 1/2 := Int.floor_le _
  have h2 : x * 10 + 1/2 - 1 < ((⌊x * 10 + 1/2⌋ : ℤ) : ℚ) := Int.sub_one_lt_floor _
  simp only [round1, jround]
  rw [abs_le]
  constructor <;> [linarith; linarith]

/-- Rounding the spread and the two scores independently keeps the spread
identity within 3/20. -/
lemma round1_spread_consistency (a h : ℚ) :
    |round1 (-(h - a)) - -(round1 h - round1 a)| ≤ 3/20 := by
  have e1 := round1_err (-(h - a))
  have e2 := round1_err h
  have e3 := round1_err a
  rw [abs_le] at e1 e2 e3 ⊢
  constructor <;> [linarith; linarith]

/-- Rounding the total and the two scores independently keeps the total
identity within 3/20. -/
lemma round1_total_consistency (a h : ℚ) :
    |round1 (a + h) - (round1 a + round1 h)| ≤ 3/20 := by
  have e1 := round1_err (a + h)
  have e2 := round1_err a
  have e3 := round1_err h
  rw [abs_le] at e1 e2 e3 ⊢
  constructor <;> [linarith; linarith]

/-- C1 (amended): for every projection, fairSpread agrees with
−(projectedHomeScore − projectedAwayScore) and fairTotal with
projectedAwayScore + projectedHomeScore within 0.15 (the three output
fields are rounded to one decimal independently, so up to three rounding
errors of 0.05 accumulate). -/
theorem c1_fair_line_consistency (game : Game) (awayTeamStats homeTeamStats : TeamStatsBundle)
    (options : Option ProjectionOptions) :
    |(generateProjection game awayTeamStats homeTeamStats options).fairSpread -
        -((generateProjection game awayTeamStats homeTeamStats options).projectedHomeScore -
          (generateProjection game awayTeamStats homeTeamStats options).projectedAwayScore)|
      ≤ 3/20 ∧
    |(generateProjection game awayTeamStats homeTeamStats options).fairTotal -
        ((generateProjection game awayTeamStats homeTeamStats options).projectedAwayScore +
          (generateProjection game awayTeamStats homeTeamStats options).projectedHomeScore)|
      ≤ 3/20 := by
  simp only [generateProjection]
  exact ⟨round1_spread_consistency _ _, round1_total_consistency _ _⟩

/-- The clamp `Math.min(100, Math.max(0, ·))` lands in [0, 100]. -/
lemma clamp_bounds (z : ℤ) : 0 ≤ min 100 (max 0 z) ∧ min 100 (max 0 z) ≤ 100 := by
  omega

/-- C8: the volatility score of every projection is an integer (it is
ℤ-valued in this model, as Math.round makes it in the source) in [0, 100],
whatever the inputs. -/
theorem c8_volatility_in_range (game : Game) (awayTeamStats homeTeamStats : TeamStatsBundle)
    (options : Option ProjectionOptions) :
    0 ≤ (generateProjection game awayTeamStats homeTeamStats options).volatilityScore ∧
    (generateProjection game awayTeamStats homeTeamStats options).volatilityScore ≤ 100 := by
  simp only [generateProjection, calculateVolatility]
  exact clamp_bounds _

end Jobu

namespace Jobu

/-! ## A concrete NFL matchup on which the two roundings disagree by 0.1 -/

def gameC1 : Game := { sport := "NFL", awayTeamName := "Away", homeTeamName := "Home" }

def seasonAwayC1 : TeamStats :=
  { offensivePPP := some 0.2, defensivePPP := some 0.1958, pace := some (10000/101) }

def seasonHomeC1 : TeamStats :=
  { offensivePPP := some 0.2, defensivePPP := some 0.2346, pace := some (10000/101) }

def awayBundleC1 : TeamStatsBundle := { season := some seasonAwayC1 }
def homeBundleC1 : TeamStatsBundle := { season := some seasonHomeC1 }

lemma awayMetricsC1_eval : blendTeamStats none none (some seasonAwayC1) none "NFL" =
    { offensiveEfficiency := 1.4, defensiveEfficiency := 1.3706, pace := 10000/101,
      strengthOfSchedule := 0, effectiveFieldGoalPct := none, turnoverPct := none,
      offensiveReboundPct := none, freeThrowRate := none, oppEffectiveFieldGoalPct := none,
      oppTurnoverPct := none, oppFreeThrowRate := none, threePointPct := none,
      threePointRate := none } := by
  norm_num [blendTeamStats, blendWeighted, getOffEff, getDefEff, getPace, jsOr, jsOrObj,
    jsNullish, truthy, seasonAwayC1, BLEND_WEIGHTS, DEFAULT_METRICS]

lemma homeMetricsC1_eval : blendTeamStats none none (some seasonHomeC1) none "NFL" =
    { offensiveEfficiency := 1.4, defensiveEfficiency := 1.6422, pace := 10000/101,
      strengthOfSchedule := 0, effectiveFieldGoalPct := none, turnoverPct := none,
      offensiveReboundPct := none, freeThrowRate := none, oppEffectiveFieldGoalPct := none,
      oppTurnoverPct := none, oppFreeThrowRate := none, threePointPct := none,
      threePointRate := none } := by
  norm_num [blendTeamStats, blendWeighted, getOffEff, getDefEff, getPace, jsOr, jsOrObj,
    jsNullish, truthy, seasonHomeC1, BLEND_WEIGHTS, DEFAULT_METRICS]

lemma possessionsC1_eval :
    calculateExpectedPossessions (10000/101) (10000/101) "NFL" =
      { possessions := 100, paceClash := 0, driver := none } := by
  norm_num [calculateExpectedPossessions]

lemma restC1_eval :
    calculateRestAdjustment "NFL" none none true = { home := 0, away := 0, drivers := [] } := by
  norm_num [calculateRestAdjustment, REST_ADJUSTMENTS]

lemma ffC1_eval :
    analyzeFourFactors
      ({ offensiveEfficiency := 1.4, defensiveEfficiency := 1.3706, pace := 10000/101,
         strengthOfSchedule := 0, effectiveFieldGoalPct := none, turnoverPct := none,
         offensiveReboundPct := none, freeThrowRate := none, oppEffectiveFieldGoalPct := none,
         oppTurnoverPct := none, oppFreeThrowRate := none, threePointPct := none,
         threePointRate := none } : TeamMetrics)
      ({ offensiveEfficiency := 1.4, defensiveEfficiency := 1.6422, pace := 10000/101,
         strengthOfSchedule := 0, effectiveFieldGoalPct := none, turnoverPct := none,
         offensiveReboundPct := none, freeThrowRate := none, oppEffectiveFieldGoalPct := none,
         oppTurnoverPct := none, oppFreeThrowRate := none, threePointPct := none,
         threePointRate := none } : TeamMetrics) "NFL" = none := by
  simp [analyzeFourFactors]

lemma projC1_fairSpread :
    (generateProjection gameC1 awayBundleC1 homeBundleC1 none).fairSpread = -0.6 := by
  simp only [gameC1, awayBundleC1, homeBundleC1, generateProjection, Option.none_bind,
    Option.getD_none]
  rw [awayMetricsC1_eval, homeMetricsC1_eval]
  rw [possessionsC1_eval, ffC1_eval, restC1_eval]
  norm_num [calculateProjectedScores, VENUE_ADJUSTMENTS, round1, jround]

lemma projC1_projectedHomeScore :
    (generateProjection gameC1 awayBundleC1 homeBundleC1 none).projectedHomeScore = 21 := by
  simp only [gameC1, awayBundleC1, homeBundleC1, generateProjection, Option.none_bind,
    Option.getD_none]
  rw [awayMetricsC1_eval, homeMetricsC1_eval]
  rw [possessionsC1_eval, ffC1_eval, restC1_eval]
  norm_num [calculateProjectedScores, VENUE_ADJUSTMENTS, round1, jround]

lemma projC1_projectedAwayScore :
    (generateProjection gameC1 awayBundleC1 homeBundleC1 none).projectedAwayScore = 20.5 := by
  simp only [gameC1, awayBundleC1, homeBundleC1, generateProjection, Option.none_bind,
    Option.getD_none]
  rw [awayMetricsC1_eval, homeMetricsC1_eval]
  rw [possessionsC1_eval, ffC1_eval, restC1_eval]
  norm_num [calculateProjectedScores, VENUE_ADJUSTMENTS, round1, jround]

/-- C1 counterexample: on this NFL matchup the projection has
fairSpread = −0.6 but −(projectedHomeScore − projectedAwayScore) =
−(21 − 20.5) = −0.5, a gap of 0.1 > 0.05, so the claimed 0.05 tolerance
fails. -/
theorem c1_tolerance_counterexample :
    ¬ (|(generateProjection gameC1 awayBundleC1 homeBundleC1 none).fairSpread -
          -((generateProjection gameC1 awayBundleC1 homeBundleC1 none).projectedHomeScore -
            (generateProjection gameC1 awayBundleC1 homeBundleC1 none).projectedAwayScore)|
        ≤ 1/20 ∧
       |(generateProjection gameC1 awayBundleC1 homeBundleC1 none).fairTotal -
          ((generateProjection gameC1 awayBundleC1 homeBundleC1 none).projectedAwayScore +
            (generateProjection gameC1 awayBundleC1 homeBundleC1 none).projectedHomeScore)|
        ≤ 1/20) := by
  intro h
  have h1 := h.1
  rw [projC1_fairSpread, projC1_projectedHomeScore, projC1_projectedAwayScore] at h1
  rw [abs_le] at h1
  norm_num at h1

end Jobu

namespace Jobu

/-- C2: for football sports with the primary split null and both the
season and the recent split providing an efficiency value, the blended
offensive efficiency — and, independently, the defensive efficiency — is
(season×35 + recent×10) / 45: the missing 55-weight is dropped and the
weighted sum is divided by the 45 points of weight actually used. -/
theorem c2_football_blend_weights (sport : String) (hsport : sport = "NFL" ∨ sport = "CFB")
    (season recent : TeamStats) (s r d1 d2 : ℚ)
    (hs : getOffEff sport (some season) = some s)
    (hr : getOffEff sport (some recent) = some r)
    (hd1 : getDefEff sport (some season) = some d1)
    (hd2 : getDefEff sport (some recent) = some d2) :
    (blendTeamStats none none (some season) (some recent) sport).offensiveEfficiency
        = (s * 35 + r * 10) / 45 ∧
    (blendTeamStats none none (some season) (some recent) sport).defensiveEfficiency
        = (d1 * 35 + d2 * 10) / 45 := by
  have hnone : ∀ sp : String, getOffEff sp (jsOrObj none none) = none := by
    intro sp; rfl
  have hnone' : ∀ sp : String, getDefEff sp (jsOrObj none none) = none := by
    intro sp; rfl
  rcases hsport with h | h <;> subst h <;>
    simp [blendTeamStats, blendWeighted, hnone, hnone', hs, hr, hd1, hd2,
      BLEND_WEIGHTS] <;> norm_num

def seasonC2 : TeamStats := { offensivePPP := some 3, defensivePPP := some 1 }
def recentC2 : TeamStats := { offensivePPP := some 2, defensivePPP := some 2 }

lemma seasonC2_off : getOffEff "NFL" (some seasonC2) = some 21 := by
  norm_num [getOffEff, jsOr, truthy, seasonC2]

lemma seasonC2_def : getDefEff "NFL" (some seasonC2) = some 7 := by
  norm_num [getDefEff, jsOr, truthy, seasonC2]

lemma recentC2_off : getOffEff "NFL" (some recentC2) = some 14 := by
  norm_num [getOffEff, jsOr, truthy, recentC2]

lemma recentC2_def : getDefEff "NFL" (some recentC2) = some 14 := by
  norm_num [getDefEff, jsOr, truthy, recentC2]

/-- C2 witness: season ppp 3 and recent ppp 2 for NFL give efficiencies
21 and 14, blended to (21·35 + 14·10)/45. -/
theorem c2_football_blend_weights_witness :
    (blendTeamStats none none (some seasonC2) (some recentC2) "NFL").offensiveEfficiency
        = (21 * 35 + 14 * 10) / 45 ∧
    (blendTeamStats none none (some seasonC2) (some recentC2) "NFL").defensiveEfficiency
        = (7 * 35 + 14 * 10) / 45 :=
  c2_football_blend_weights "NFL" (Or.inl rfl) seasonC2 recentC2 21 14 7 14
    seasonC2_off recentC2_off seasonC2_def recentC2_def

end Jobu

namespace Jobu

/-- Characterization of the basketball branch of getConfidenceEnhanced. -/
lemma gCE_eq_basketball (e v : ℚ) (ff : Option FourFactorsEdge) (ks : ℕ) (sport : String)
    (hs : sport = "NBA" ∨ sport = "CBB") :
    getConfidenceEnhanced e v ff ks sport =
      if 2 ≤ ks then "Lean"
      else if 4.5 ≤ e ∧ v < 50 ∧ ks = 0 then
        if hasFourFactorsAlignment ff = true ∨ 5.5 ≤ e then "High" else "Medium"
      else if 3.0 ≤ e ∧ v < 60 then "Medium"
      else "Lean" := by
  rcases hs with h | h <;> subst h <;>
    · simp only [getConfidenceEnhanced]
      split_ifs <;> simp_all
      any_goals linarith

/-- Characterization of the football branch of getConfidenceEnhanced. -/
lemma gCE_eq_football (e v : ℚ) (ff : Option FourFactorsEdge) (ks : ℕ) (sport : String)
    (hs : ¬ (sport = "NBA" ∨ sport = "CBB")) :
    getConfidenceEnhanced e v ff ks sport =
      if 2 ≤ ks then "Lean"
      else if 4.0 ≤ e ∧ v < 55 ∧ ks = 0 then "High"
      else if 2.5 ≤ e ∧ v < 65 then "Medium"
      else "Lean" := by
  simp only [getConfidenceEnhanced, if_neg hs]

/-- The tier order Lean < Medium < High, as a rank. -/
def confidenceRank (c : String) : ℕ :=
  if c = "High" then 2 else if c = "Medium" then 1 else 0

/-- C4 counterexample: basketball, edge 6 ≥ 5.5, volatility 40 < 50 and a
single kill switch — the claim guarantees "High", the code requires zero
kill switches for the High branch and returns "Medium". -/
theorem c4_counterexample :
    getConfidenceEnhanced 6 40 none 1 "NBA" = "Medium" ∧ ("Medium" : String) ≠ "High" := by
  constructor
  · norm_num [getConfidenceEnhanced, hasFourFactorsAlignment]
  · decide

/-- C4 (amended): for basketball, two or more kill switches give "Lean"
regardless of edge; with fewer, the High branch additionally requires
zero kill switches: edge ≥ 4.5 with volatility < 50 and no kill switch
gives "High" when a Four-Factors alignment (|totalEdge| > 1) is present
or edge ≥ 5.5, else "Medium"; otherwise edge ≥ 3.0 with volatility < 60
gives "Medium" (even when edge ≥ 4.5 but the High branch failed), else
"Lean". -/
theorem c4_basketball_confidence (e v : ℚ) (ff : Option FourFactorsEdge) (ks : ℕ) :
    getConfidenceEnhanced e v ff ks "NBA" =
      (if 2 ≤ ks then "Lean"
       else if 4.5 ≤ e ∧ v < 50 ∧ ks = 0 then
         if hasFourFactorsAlignment ff = true ∨ 5.5 ≤ e then "High" else "Medium"
       else if 3.0 ≤ e ∧ v < 60 then "Medium"
       else "Lean") ∧
    getConfidenceEnhanced e v ff ks "CBB" =
      (if 2 ≤ ks then "Lean"
       else if 4.5 ≤ e ∧ v < 50 ∧ ks = 0 then
         if hasFourFactorsAlignment ff = true ∨ 5.5 ≤ e then "High" else "Medium"
       else if 3.0 ≤ e ∧ v < 60 then "Medium"
       else "Lean") :=
  ⟨gCE_eq_basketball e v ff ks "NBA" (Or.inl rfl),
   gCE_eq_basketball e v ff ks "CBB" (Or.inr rfl)⟩

/-- C5: for fixed volatility, kill switches, Four-Factors edge and sport,
a larger edge percentage never lowers the confidence tier. -/
theorem c5_confidence_monotone (e1 e2 v : ℚ) (ff : Option FourFactorsEdge) (ks : ℕ)
    (sport : String) (h : e1 ≤ e2) :
    confidenceRank (getConfidenceEnhanced e1 v ff ks sport)
      ≤ confidenceRank (getConfidenceEnhanced e2 v ff ks sport) := by
  by_cases hs : sport = "NBA" ∨ sport = "CBB"
  · rw [gCE_eq_basketball e1 v ff ks sport hs, gCE_eq_basketball e2 v ff ks sport hs]
    by_cases hks : 2 ≤ ks
    · simp [hks]
    · rw [if_neg hks, if_neg hks]
      by_cases hA1 : (4.5 : ℚ) ≤ e1 ∧ v < 50 ∧ ks = 0
      · have hA2 : (4.5 : ℚ) ≤ e2 ∧ v < 50 ∧ ks = 0 := ⟨hA1.1.trans h, hA1.2.1, hA1.2.2⟩
        rw [if_pos hA1, if_pos hA2]
        by_cases hor1 : hasFourFactorsAlignment ff = true ∨ (5.5 : ℚ) ≤ e1
        · have hor2 : hasFourFactorsAlignment ff = true ∨ (5.5 : ℚ) ≤ e2 :=
            hor1.imp id (fun hh => hh.trans h)
          rw [if_pos hor1, if_pos hor2]
        · rw [if_neg hor1]
          split_ifs <;> simp [confidenceRank]
      · rw [if_neg hA1]
        by_cases hB1 : (3.0 : ℚ) ≤ e1 ∧ v < 60
        · have hB2 : (3.0 : ℚ) ≤ e2 ∧ v < 60 := ⟨hB1.1.trans h, hB1.2⟩
          rw [if_pos hB1]
          by_cases hA2 : (4.5 : ℚ) ≤ e2 ∧ v < 50 ∧ ks = 0
          · rw [if_pos hA2]
            split_ifs <;> simp [confidenceRank]
          · rw [if_neg hA2, if_pos hB2]
        · rw [if_neg hB1]
          exact Nat.zero_le _
  · rw [gCE_eq_football e1 v ff ks sport hs, gCE_eq_football e2 v ff ks sport hs]
    by_cases hks : 2 ≤ ks
    · simp [hks]
    · rw [if_neg hks, if_neg hks]
      by_cases hA1 : (4.0 : ℚ) ≤ e1 ∧ v < 55 ∧ ks = 0
      · have hA2 : (4.0 : ℚ) ≤ e2 ∧ v < 55 ∧ ks = 0 := ⟨hA1.1.trans h, hA1.2.1, hA1.2.2⟩
        rw [if_pos hA1, if_pos hA2]
      · rw [if_neg hA1]
        by_cases hB1 : (2.5 : ℚ) ≤ e1 ∧ v < 65
        · have hB2 : (2.5 : ℚ) ≤ e2 ∧ v < 65 := ⟨hB1.1.trans h, hB1.2⟩
          rw [if_pos hB1]
          by_cases hA2 : (4.0 : ℚ) ≤ e2 ∧ v < 55 ∧ ks = 0
          · rw [if_pos hA2]
            simp [confidenceRank]
          · rw [if_neg hA2, if_pos hB2]
        · rw [if_neg hB1]
          exact Nat.zero_le _

/-- C5 witness: edge 1 ≤ edge 6 at volatility 40, no kill switches. -/
theorem c5_confidence_monotone_witness :
    confidenceRank (getConfidenceEnhanced 1 40 none 0 "NBA")
      ≤ confidenceRank (getConfidenceEnhanced 6 40 none 0 "NBA") :=
  c5_confidence_monotone 1 6 40 none 0 "NBA" (by norm_num)

end Jobu
namespace Jobu

/-- The row latestByCapture selects comes from the list. -/
lemma latestByCapture_mem (l : List BettingPercentage) (b : BettingPercentage)
    (h : latestByCapture l = some b) : b ∈ l := by
  suffices H : ∀ (t : List BettingPercentage) (acc : Option BettingPercentage),
      t.foldl (fun acc p =>
        match acc with
        | none => some p
        | some c => if c.capturedAt < p.capturedAt then some p else some c) acc = some b →
      acc = some b ∨ b ∈ t by
    rcases H l none h with hacc | hmem
    · exact absurd hacc (by simp)
    · exact hmem
  intro t
  induction t with
  | nil => intro acc hacc; exact Or.inl hacc
  | cons p rest ih =>
    intro acc hacc
    rcases ih _ hacc with hstep | hmem
    · cases acc with
      | none =>
        simp only [Option.some.injEq] at hstep
        exact Or.inr (by simp [hstep])
      | some c =>
        simp only at hstep
        by_cases hc : c.capturedAt < p.capturedAt
        · rw [if_pos hc] at hstep
          simp only [Option.some.injEq] at hstep
          exact Or.inr (by simp [hstep])
        · rw [if_neg hc] at hstep
          exact Or.inl hstep
    · exact Or.inr (List.mem_cons_of_mem _ hmem)

/-- Choosing a side from a percentage differs between two percentages
exactly when one is above 50 and the other is not. -/
lemma sideForPct_ne_iff (t m : ℚ) (s : String) :
    sideForPct t s ≠ sideForPct m s ↔ ((50 < t) ↔ ¬ (50 < m)) := by
  unfold sideForPct
  by_cases ht : 50 < t <;> by_cases hm : 50 < m <;>
    by_cases hs : s = "home" <;> simp [ht, hm, hs, ne_comm]

/-- C6: detectRlm returns a signal only when the public side and money
side disagree (one percentage above 50, the other not), the latest ticket
percentage is ≥ 60, the ticket/money divergence is ≥ 5 and the cumulative
line movement is ≥ 0.5; in particular a series whose ticket percentages
are all below 60 yields null. -/
theorem c6_rlm_fires_only_if (bps : List BettingPercentage) (lms : List LineMovement)
    (mt : String) :
    (∀ r, detectRlm bps lms mt = some r →
       60 ≤ r.ticketPercentage ∧
       5 ≤ |r.moneyPercentage - r.ticketPercentage| ∧
       (0.5 : ℚ) ≤ r.lineMovementSize ∧
       ((50 < r.ticketPercentage) ↔ ¬ (50 < r.moneyPercentage))) ∧
    ((∀ p ∈ bps, p.ticketPercentage < 60) → detectRlm bps lms mt = none) := by
  constructor
  · intro r hr
    cases hl : latestByCapture (bps.filter (fun p => p.marketType == mt)) with
    | none => simp [detectRlm, hl] at hr
    | some latest =>
      cases hf : firstByCapture (lms.filter (fun m => m.marketType == mt)) with
      | none => simp [detectRlm, hl, hf] at hr
      | some firstM =>
        cases hg : lastByCapture (lms.filter (fun m => m.marketType == mt)) with
        | none => simp [detectRlm, hl, hf, hg] at hr
        | some lastM =>
          simp only [detectRlm, hl, hf, hg] at hr
          rw [Option.ite_none_right_eq_some, Option.some.injEq] at hr
          obtain ⟨⟨hpub, htick, hdiv, hmov⟩, hrec⟩ := hr
          subst hrec
          refine ⟨?_, ?_, ?_, (sideForPct_ne_iff _ _ _).mp hpub⟩
          · simpa [RLM_PUBLIC_THRESHOLD] using htick
          · simpa [RLM_WEAK_DIVERGENCE] using hdiv
          · simpa [RLM_WEAK_MOVEMENT] using hmov
  · intro hlt
    cases hl : latestByCapture (bps.filter (fun p => p.marketType == mt)) with
    | none => simp [detectRlm, hl]
    | some latest =>
      have hlt60 : latest.ticketPercentage < 60 :=
        hlt latest (List.mem_of_mem_filter (latestByCapture_mem _ _ hl))
      cases hf : firstByCapture (lms.filter (fun m => m.marketType == mt)) with
      | none => simp [detectRlm, hl, hf]
      | some firstM =>
        cases hg : lastByCapture (lms.filter (fun m => m.marketType == mt)) with
        | none => simp [detectRlm, hl, hf, hg]
        | some lastM =>
          simp only [detectRlm, hl, hf, hg]
          rw [if_neg]
          rintro ⟨-, hge, -, -⟩
          rw [RLM_PUBLIC_THRESHOLD] at hge
          linarith

def bpsW : List BettingPercentage :=
  [{ marketType := "spread", side := "home", ticketPercentage := 70, moneyPercentage := 45,
     capturedAt := 0 }]

def lmsW : List LineMovement :=
  [{ marketType := "spread", previousValue := 5, currentValue := 6, capturedAt := 0 }]

def rlmW : RlmAnalysis :=
  { isRlm := true, signalStrength := "moderate", ticketPercentage := 70, moneyPercentage := 45,
    lineMovementDirection := "up", lineMovementSize := 1, side := "away", marketType := "spread" }

lemma detectRlm_W : detectRlm bpsW lmsW "spread" = some rlmW := by
  norm_num [detectRlm, bpsW, lmsW, rlmW, latestByCapture, firstByCapture, lastByCapture,
    sideForPct, RLM_PUBLIC_THRESHOLD, RLM_WEAK_DIVERGENCE, RLM_WEAK_MOVEMENT,
    RLM_STRONG_DIVERGENCE, RLM_STRONG_MOVEMENT, RLM_HEAVY_PUBLIC,
    RLM_MODERATE_DIVERGENCE, RLM_MODERATE_MOVEMENT, List.filter, List.foldl]
  intro h
  exact absurd h (by decide)

/-- C6 witness: a series firing the detector satisfies every condition. -/
theorem c6_rlm_fires_only_if_witness :
    60 ≤ rlmW.ticketPercentage ∧
    5 ≤ |rlmW.moneyPercentage - rlmW.ticketPercentage| ∧
    (0.5 : ℚ) ≤ rlmW.lineMovementSize ∧
    ((50 < rlmW.ticketPercentage) ↔ ¬ (50 < rlmW.moneyPercentage)) :=
  (c6_rlm_fires_only_if bpsW lmsW "spread").1 rlmW detectRlm_W

end Jobu

namespace Jobu

/-- C7 counterexample: at NBA paces 105/92 the code multiplies the 60/40
slow-weighted pace 97.2 by the extra 0.5% home-tempo factor, returning
97.686 — not the weighted value itself as the claim reads. -/
theorem c7_counterexample :
    (calculateExpectedPossessions 105 92 "NBA").possessions = 97.686 ∧
    (97.686 : ℚ) ≠ 92 * 0.6 + 105 * 0.4 := by
  constructor
  · norm_num [calculateExpectedPossessions]
  · norm_num

/-- C7 (amended): for basketball with pace gap above 3, expected
possessions are the 60/40 slow-weighted pace times an additional 1.005
home-tempo factor; the pace-clash adjustment is the (unboosted) weighted
pace minus the simple average, and the driver names the slower side
("away" when the away pace is lower, else "home"); otherwise — and always
for football — possessions are the simple average boosted by 1%, with no
clash and no driver. -/
theorem c7_pace_clash (awayPace homePace : ℚ) (sport : String) :
    (3 < |awayPace - homePace| ∧ (sport = "NBA" ∨ sport = "CBB") →
      calculateExpectedPossessions awayPace homePace sport =
        { possessions := (min awayPace homePace * 0.6 + max awayPace homePace * 0.4) * 1.005
          paceClash := min awayPace homePace * 0.6 + max awayPace homePace * 0.4
            - (awayPace + homePace) / 2
          driver := some (paceClashDriver |awayPace - homePace| (min awayPace homePace)
            (max awayPace homePace) (if awayPace < homePace then "away" else "home")) }) ∧
    (¬ (3 < |awayPace - homePace| ∧ (sport = "NBA" ∨ sport = "CBB")) →
      calculateExpectedPossessions awayPace homePace sport =
        { possessions := (awayPace + homePace) / 2 * 1.01, paceClash := 0, driver := none }) := by
  constructor <;> intro h <;> simp only [calculateExpectedPossessions]
  · rw [if_pos h]
  · rw [if_neg h]

/-- C7 witness: NBA, away pace 105, home pace 92. -/
theorem c7_pace_clash_witness :
    calculateExpectedPossessions 105 92 "NBA" =
      { possessions := (min (105 : ℚ) 92 * 0.6 + max (105 : ℚ) 92 * 0.4) * 1.005
        paceClash := min (105 : ℚ) 92 * 0.6 + max (105 : ℚ) 92 * 0.4 - ((105 : ℚ) + 92) / 2
        driver := some (paceClashDriver |(105 : ℚ) - 92| (min (105 : ℚ) 92) (max (105 : ℚ) 92)
          (if (105 : ℚ) < 92 then "away" else "home")) } :=
  (c7_pace_clash 105 92 "NBA").1 ⟨by norm_num, Or.inl rfl⟩

/-! ## C9: present-but-zero fields -/

/-- C10: with options given but isAwayTeamTraveling omitted, the away
team is assumed traveling, so zero away rest days yields the
back-to-back-plus-travel penalty: −4.5 for NBA, −3.0 for CBB (the plain
back-to-back penalties are −3.0 and −2.0). -/
theorem c10_away_traveling_default (awayName homeName : String) (neutral : Option Bool)
    (aB hB : TeamStatsBundle) (hr : Option ℚ) :
    (generateProjection
        { sport := "NBA", awayTeamName := awayName, homeTeamName := homeName,
          isNeutralSite := neutral } aB hB
        (some { homeRestDays := hr, awayRestDays := some 0 })).restAdjustment.away = -4.5 ∧
    (generateProjection
        { sport := "CBB", awayTeamName := awayName, homeTeamName := homeName,
          isNeutralSite := neutral } aB hB
        (some { homeRestDays := hr, awayRestDays := some 0 })).restAdjustment.away = -3.0 := by
  constructor <;>
    (norm_num [generateProjection, calculateRestAdjustment, REST_ADJUSTMENTS, Option.bind];
     try rfl)

end Jobu

namespace Jobu

/-- Rounding to one decimal preserves nonnegativity. -/
lemma round1_nonneg (x : ℚ) (hx : 0 ≤ x) : 0 ≤ round1 x := by
  have h : (0 : ℤ) ≤ ⌊x * 10 + 1/2⌋ := Int.floor_nonneg.mpr (by linarith)
  have h' : (0 : ℚ) ≤ ((⌊x * 10 + 1/2⌋ : ℤ) : ℚ) := by exact_mod_cast h
  simp only [round1, jround]
  exact div_nonneg h' (by norm_num)

/-- Membership in a conditional singleton forces equality. -/
lemma mem_ite_singleton {α : Type} {c : Prop} [Decidable c] {x o : α}
    (h : o ∈ (if c then [x] else [])) : o = x := by
  split_ifs at h
  · simpa using h
  · simp at h

/-- C3 (amended): every spread opportunity has side "away" exactly when
fair spread − market spread > 0: its stored edge percentage is the
one-decimal rounding of |fair spread − market spread| divided by the
absolute market spread (1 only when the market spread is exactly 0 — the
denominator is NOT floored at 1 and can be below 1), times 100; the stored
value is always ≥ 0 (and not capped above). -/
theorem c3_spread_opportunity (gameId : ℤ) (sport : String) (projection : ProjectionResult)
    (cs : ℚ) (currentTotal : Option ℚ) (o : InsertOpportunity)
    (ho : o ∈ identifyOpportunities gameId sport projection (some cs) currentTotal)
    (hm : o.marketType = "spread") :
    o.side = (if 0 < projection.fairSpread - cs then "away" else "home") ∧
    o.edgePercentage = round1 (|projection.fairSpread - cs| / |jsOrNum cs 1| * 100) ∧
    0 ≤ o.edgePercentage := by
  simp only [identifyOpportunities, List.mem_append] at ho
  rcases ho with (ho | ho) | ho
  · have hx := mem_ite_singleton ho
    subst hx
    refine ⟨rfl, rfl, round1_nonneg _ (by positivity)⟩
  · cases currentTotal with
    | none => simp at ho
    | some ctv =>
      have hx := mem_ite_singleton ho
      subst hx
      simp at hm
  · have hx := mem_ite_singleton ho
    subst hx
    simp at hm

def projC3 : ProjectionResult :=
  { projectedAwayScore := 0, projectedHomeScore := 0, projectedTotal := 0, projectedMargin := 0,
    fairSpread := 2, fairTotal := 0, expectedPossessions := 0, volatilityScore := 50,
    volatilityDrivers := [], blendBreakdown := ⟨55, 35, 10⟩, sosAdjustment := 0,
    fourFactorsEdge := none, restAdjustment := ⟨0, 0, []⟩, paceClashAdjustment := 0,
    drivers := [], killSwitches := [], firstHalf := ⟨0, 0, 0, 0⟩ }

/-- C3 counterexample: with fair spread 2 against a market spread of 0.5,
the created spread opportunity stores edgePercentage 300 = |1.5|/0.5·100
— the denominator used is |0.5|, not the claimed max(|0.5|, 1), which
would give 150. -/
theorem c3_counterexample :
    (identifyOpportunities 1 "NFL" projC3 (some 0.5) none).map (·.marketType) = ["spread"] ∧
    (identifyOpportunities 1 "NFL" projC3 (some 0.5) none).map (·.edgePercentage) = [300] ∧
    round1 (|projC3.fairSpread - 0.5| / max 1 |(0.5 : ℚ)| * 100) = 150 ∧
    (300 : ℚ) ≠ 150 := by
  refine ⟨?_, ?_, ?_, by norm_num⟩
  · norm_num +decide [identifyOpportunities, projC3, jsOrNum, FIRST_HALF_RATIOS, abs_of_nonneg]
  · norm_num +decide [identifyOpportunities, projC3, jsOrNum, round1, jround, FIRST_HALF_RATIOS,
      abs_of_nonneg]
  · norm_num [projC3, round1, jround, abs_le, abs_of_nonneg]

def projC3W : ProjectionResult :=
  { projectedAwayScore := 0, projectedHomeScore := 0, projectedTotal := 0, projectedMargin := 0,
    fairSpread := 4, fairTotal := 0, expectedPossessions := 0, volatilityScore := 50,
    volatilityDrivers := [], blendBreakdown := ⟨55, 35, 10⟩, sosAdjustment := 0,
    fourFactorsEdge := none, restAdjustment := ⟨0, 0, []⟩, paceClashAdjustment := 0,
    drivers := [], killSwitches := [], firstHalf := ⟨0, 0, 0, 0⟩ }

def oW3 : InsertOpportunity :=
  { gameId := 1, projectionId := none, sport := "NFL", marketType := "spread", side := "away",
    playDescription := "Away +2", currentLine := some 2, currentOdds := -110, fairLine := some 4,
    edgePercentage := 100, confidence := "High", volatilityScore := 50,
    isReverseLineMovement := false, ticketPercentage := none, moneyPercentage := none,
    drivers := [], killSwitches := none, status := "active", result := none }

lemma jsNumToString_two : jsNumToString 2 = "2" := by
  rw [jsNumToString, if_pos (by norm_num [Rat.den_ofNat]),
    show ((2 : ℚ).num) = 2 by norm_num]
  rfl

lemma oW3_mem : oW3 ∈ identifyOpportunities 1 "NFL" projC3W (some 2) none := by
  norm_num [identifyOpportunities, projC3W, oW3, jsOrNum, round1, jround,
    getConfidenceEnhanced, hasFourFactorsAlignment, FIRST_HALF_RATIOS, jsNumToString_two]
  exact ⟨rfl, rfl⟩

/-- C3 witness: the spread opportunity created at fair spread 4 vs market
spread 2. -/
theorem c3_spread_opportunity_witness :
    oW3.side = (if 0 < projC3W.fairSpread - 2 then "away" else "home") ∧
    oW3.edgePercentage = round1 (|projC3W.fairSpread - 2| / |jsOrNum 2 1| * 100) ∧
    0 ≤ oW3.edgePercentage :=
  c3_spread_opportunity 1 "NFL" projC3W 2 none oW3 oW3_mem rfl

end Jobu
